import Mathlib

/-!
Shallow embedding of `src/spherescript.py`, a Blender batch script that
builds a translucent sphere with an outline shell and two hoops, exports
the mesh, renders four preset views and writes a label CSV.

Modelling conventions:
* Colors, alpha values, scale factors and light energy are exact
  rationals (the source's decimal float literals).
* Angles and object transforms are exact reals: `math.radians` becomes
  `radians`, and an object's orientation is its rotation matrix together
  with its location vector (`bpy.ops.transform.rotate` about the world
  origin premultiplies both by an axis rotation).
* The mutable Blender state (`bpy.data` / `bpy.context`) is an explicit
  `Scene` record threaded through each operation; Python mutation of an
  object handle becomes construction of the updated record.
-/

namespace SphereScript

/-- Degrees-to-radians conversion, embedding `math.radians`. -/
noncomputable def radians (d : ℝ) : ℝ := d * Real.pi / 180

/-- Rotation matrix about the world X axis. -/
noncomputable def rotX (θ : ℝ) : Matrix (Fin 3) (Fin 3) ℝ :=
  Matrix.of ![![1, 0, 0],
              ![0, Real.cos θ, -Real.sin θ],
              ![0, Real.sin θ, Real.cos θ]]

/-- Rotation matrix about the world Y axis. -/
noncomputable def rotY (θ : ℝ) : Matrix (Fin 3) (Fin 3) ℝ :=
  Matrix.of ![![Real.cos θ, 0, Real.sin θ],
              ![0, 1, 0],
              ![-Real.sin θ, 0, Real.cos θ]]

/-- Rotation matrix about the world Z axis. -/
noncomputable def rotZ (θ : ℝ) : Matrix (Fin 3) (Fin 3) ℝ :=
  Matrix.of ![![Real.cos θ, -Real.sin θ, 0],
              ![Real.sin θ, Real.cos θ, 0],
              ![0, 0, 1]]

/-- Blender's default XYZ Euler order: the X rotation is applied first,
then Y, then Z, so the matrix is `rotZ z * rotY y * rotX x`.  Embeds an
assignment to `rotation_euler`. -/
noncomputable def eulerXYZ (x y z : ℝ) : Matrix (Fin 3) (Fin 3) ℝ :=
  rotZ z * rotY y * rotX x

/-! ### Data model -/

/-- A material's blend method: Blender's default is opaque; the script
switches to alpha blending with `mat.blend_method = 'BLEND'`. -/
inductive BlendMethod where
  | OPAQUE : BlendMethod
  | BLEND : BlendMethod
deriving DecidableEq, Repr

/-- A material as configured by `make_material`: name, Principled-BSDF
base color, alpha input, blend method and back-face transparency flag. -/
structure Material where
  name : String
  base_color : ℚ × ℚ × ℚ × ℚ
  alpha : ℚ
  blend_method : BlendMethod
  show_transparent_back : Bool
deriving DecidableEq, Repr

/-- The geometric primitive a mesh data block was created from. -/
inductive Prim where
  | uvSphere (radius : ℚ) (segments ring_count : Nat) : Prim
  | torus (major_radius minor_radius : ℚ) (major_segments minor_segments : Nat) : Prim
deriving DecidableEq, Repr

/-- A mesh data block (`bpy.data.meshes` entry): its source primitive,
whether `flip_normals` has inverted its face normals, and its material
slot list (`mesh.materials`). -/
structure Mesh where
  prim : Prim
  normalsFlipped : Bool
  materials : List Material
deriving DecidableEq, Repr

/-- Object types distinguished by the script (`obj.type != 'CAMERA'`). -/
inductive ObjType where
  | MESH : ObjType
  | CAMERA : ObjType
  | LIGHT : ObjType
deriving DecidableEq, Repr

/-- The rotation/location part of an object's transform.
`bpy.ops.transform.rotate(value, orient_axis)` about the world origin
premultiplies `rot` by the axis rotation and rotates `loc`. -/
structure Transform where
  rot : Matrix (Fin 3) (Fin 3) ℝ
  loc : Fin 3 → ℝ

/-- The identity transform of a newly added primitive at the origin. -/
noncomputable def Transform.id0 : Transform := ⟨1, ![0, 0, 0]⟩

/-- A scene object: name, type, reference to its mesh data block (mesh
objects only), transform, scale, the `shape_tag` custom property, parent,
selection state, and the light energy for light data. -/
structure SceneObject where
  name : String
  objType : ObjType
  data : Option Nat
  transform : Transform
  scale : ℚ × ℚ × ℚ
  shape_tag : Option String
  parent : Option String
  selected : Bool
  show_in_front : Bool
  display_type : String
  energy : Option ℚ

/-- The Blender state the script manipulates: the scene's objects, the
mesh data blocks (keyed by an id, with a fresh-id counter), the material
collection, the scene's active camera, and the files written by renders
and exports. -/
structure Scene where
  objects : List SceneObject
  meshes : List (Nat × Mesh)
  nextMeshId : Nat
  materials : List Material
  camera : Option String
  renders : List String
  files : List String

/-- A fresh scene with nothing in it. -/
def emptyScene : Scene :=
  { objects := [], meshes := [], nextMeshId := 0, materials := [],
    camera := none, renders := [], files := [] }

/-- Look up a mesh data block by id (first match, as in a keyed
collection with unique ids). -/
def Scene.mesh? (s : Scene) (id : Nat) : Option Mesh :=
  (s.meshes.find? (fun e => e.1 == id)).map (·.2)

/-- The number of users of a mesh data block: the objects whose data
reference it (`block.users`). -/
def Scene.users (s : Scene) (id : Nat) : Nat :=
  (s.objects.filter (fun o => o.data == some id)).length

/-! ### Script parameters (the PARAMETERS block) -/

def export_path : String := "~/Desktop/sphere_dataset/"

def SPHERE_RADIUS : ℚ := 1
def SPHERE_SEGMENTS : Nat := 64
def OPACITY : ℚ := 0.4
def OUTLINE_THICKNESS : ℚ := 0.04
def HOOP_THICKNESS : ℚ := 0.02

/-- The preset view list: a name and the Euler rotation triple passed to
`render_view`. -/
noncomputable def RENDER_VIEWS : List (String × (ℝ × ℝ × ℝ)) :=
  [("front", (0, 0, 0)),
   ("side", (0, radians 90, 0)),
   ("top", (radians 90, 0, 0)),
   ("3quarter", (radians 35, radians 40, 0))]

/-! ### Helper functions -/

/-- Embeds `delete_all`: select everything, delete the selection (all objects),
then remove every mesh data block whose user count is zero. -/
def delete_all (s : Scene) : Scene :=
  let afterSelect : Scene :=
    { s with objects := s.objects.map (fun o => { o with selected := true }) }
  let afterDelete : Scene :=
    { afterSelect with objects := afterSelect.objects.filter (fun o => !o.selected) }
  { afterDelete with meshes := afterDelete.meshes.filter (fun e => afterDelete.users e.1 != 0) }

/-- Embeds `make_material(name, rgba, transparent=True)`: the material value it
builds — base color and alpha from `rgba`; if `transparent`, blend method
BLEND with back-face transparency, otherwise Blender's opaque defaults.
It binds nothing to any object. -/
def make_material (name : String) (rgba : ℚ × ℚ × ℚ × ℚ) (transparent : Bool := true) :
    Material :=
  let base := { name := name, base_color := rgba, alpha := rgba.2.2.2,
                blend_method := BlendMethod.OPAQUE, show_transparent_back := false :
                Material }
  if transparent then
    { base with blend_method := BlendMethod.BLEND, show_transparent_back := true }
  else
    base

/-- The effect of `make_material` on Blender state: `bpy.data.materials.new`
registers the new material in the material collection. -/
def make_materialOp (s : Scene) (name : String) (rgba : ℚ × ℚ × ℚ × ℚ)
    (transparent : Bool := true) : Scene × Material :=
  let mat := make_material name rgba transparent
  ({ s with materials := s.materials ++ [mat] }, mat)

/-- The slot-0 binding pattern used at every call site:
`if data.materials: data.materials[0] = mat else: data.materials.append(mat)`. -/
def bindSlot0 (slots : List Material) (mat : Material) : List Material :=
  match slots with
  | [] => [mat]
  | _ :: rest => mat :: rest

/-- Point update of the mesh entry `mid`: bind `mat` into its slot 0. -/
def bindMeshAt (mat : Material) (mid : Nat) (e : Nat × Mesh) : Nat × Mesh :=
  if e.1 == mid then (e.1, { e.2 with materials := bindSlot0 e.2.materials mat }) else e

/-- Point update of the mesh entry `mid`: invert its face normals
(`bpy.ops.mesh.flip_normals` on the active object's mesh). -/
def flipMeshAt (mid : Nat) (e : Nat × Mesh) : Nat × Mesh :=
  if e.1 == mid then (e.1, { e.2 with normalsFlipped := !e.2.normalsFlipped }) else e

/-- Bind a material into slot 0 of the mesh data block `mid`. -/
def bindMeshMat (s : Scene) (mid : Nat) (mat : Material) : Scene :=
  { s with meshes := s.meshes.map (bindMeshAt mat mid) }

/-- Attribute assignment through an object handle: the scene object with
the handle's (unique) name is updated in place. -/
def updateObj (s : Scene) (n : String) (f : SceneObject → SceneObject) : Scene :=
  { s with objects := s.objects.map (fun o => if o.name == n then f o else o) }

/-- Embeds `bpy.ops.mesh.primitive_uv_sphere_add(radius, segments, ring_count,
location=(0,0,0))`: a new mesh data block and a new selected object at
the origin; the new object is `bpy.context.active_object`. -/
noncomputable def primitive_uv_sphere_add (s : Scene) (radius : ℚ)
    (segments ring_count : Nat) : Scene × SceneObject :=
  let mid := s.nextMeshId
  let mesh : Mesh :=
    { prim := Prim.uvSphere radius segments ring_count,
      normalsFlipped := false, materials := [] }
  let obj : SceneObject :=
    { name := "Sphere", objType := ObjType.MESH, data := some mid,
      transform := Transform.id0, scale := (1, 1, 1), shape_tag := none,
      parent := none, selected := true, show_in_front := false,
      display_type := "TEXTURED", energy := none }
  ({ s with meshes := s.meshes ++ [(mid, mesh)], nextMeshId := mid + 1,
            objects := s.objects ++ [obj] }, obj)

/-- Embeds `add_outline(obj, thickness)`: duplicate `obj`, give the duplicate a
copy of the source mesh data, scale it up by `1+thickness`, flip the
copied mesh's normals, bind a fresh black material into its slot 0, and
rename it `obj.name + "_outline"`.  `none` when the source object has no
mesh data (the host would raise).  The duplicate is linked into the
collection by reference, so the scene holds the fully mutated record. -/
noncomputable def add_outline (s : Scene) (obj : SceneObject) (thickness : ℚ) :
    Option (Scene × SceneObject) :=
  match obj.data with
  | none => none
  | some srcId =>
    match s.mesh? srcId with
    | none => none
    | some srcMesh =>
      let newId := s.nextMeshId
      -- outline = obj.copy(); outline.data = obj.data.copy()
      let s1 : Scene :=
        { s with meshes := s.meshes ++ [(newId, srcMesh)], nextMeshId := newId + 1 }
      -- outline.scale = (1+thickness, 1+thickness, 1+thickness)
      let outline1 : SceneObject :=
        { obj with data := some newId,
                   scale := (1 + thickness, 1 + thickness, 1 + thickness) }
      -- flip normals of the active object's (the outline's) mesh
      let s2 : Scene :=
        { s1 with meshes := s1.meshes.map (flipMeshAt newId) }
      let made := make_materialOp s2 "outline_black" (0, 0, 0, 1)
      let s3 := bindMeshMat made.1 newId made.2
      let outline2 : SceneObject :=
        { outline1 with show_in_front := true, display_type := "SOLID",
                        name := obj.name ++ "_outline" }
      some ({ s3 with objects := s3.objects ++ [outline2] }, outline2)

/-- Embeds `add_hoop(radius, thickness, axis='Z')`: a torus primitive with the
given major/minor radii, rotated by exactly 90 degrees for the X and Y
axes (none for Z), with a fresh black material bound into slot 0, named
and tagged `hoop_<axis>`. -/
noncomputable def add_hoop (s : Scene) (radius thickness : ℚ)
    (axis : String := "Z") : Scene × SceneObject :=
  let mid := s.nextMeshId
  let torusMesh : Mesh :=
    { prim := Prim.torus radius thickness 96 16,
      normalsFlipped := false, materials := [] }
  let hoop0 : SceneObject :=
    { name := "Torus", objType := ObjType.MESH, data := some mid,
      transform := Transform.id0, scale := (1, 1, 1), shape_tag := none,
      parent := none, selected := true, show_in_front := false,
      display_type := "TEXTURED", energy := none }
  let hoop1 : SceneObject :=
    if axis == "X" then
      { hoop0 with transform := { hoop0.transform with rot := eulerXYZ 0 (radians 90) 0 } }
    else if axis == "Y" then
      { hoop0 with transform := { hoop0.transform with rot := eulerXYZ (radians 90) 0 0 } }
    else hoop0
  let sMesh : Scene :=
    { s with meshes := s.meshes ++ [(mid, torusMesh)], nextMeshId := mid + 1 }
  let made := make_materialOp sMesh "hoop_black" (0, 0, 0, 1)
  let s1 := bindMeshMat made.1 mid made.2
  let hoop2 : SceneObject :=
    { hoop1 with name := "hoop_" ++ axis, shape_tag := some ("hoop_" ++ axis) }
  ({ s1 with objects := s1.objects ++ [hoop2] }, hoop2)

/-- The camera created by `bpy.ops.object.camera_add(location=(0,-4,0),
rotation=(math.radians(90),0,0))`. -/
noncomputable def cameraObj : SceneObject :=
  { name := "Camera", objType := ObjType.CAMERA, data := none,
    transform := { rot := eulerXYZ (radians 90) 0 0, loc := ![0, -4, 0] },
    scale := (1, 1, 1), shape_tag := none, parent := none, selected := true,
    show_in_front := false, display_type := "TEXTURED", energy := none }

/-- The area light created by `bpy.ops.object.light_add(type='AREA',
location=(0,-3,3))`; `energy` records the value the script assigns. -/
noncomputable def lightObj : SceneObject :=
  { name := "Light", objType := ObjType.LIGHT, data := none,
    transform := { rot := 1, loc := ![0, -3, 3] },
    scale := (1, 1, 1), shape_tag := none, parent := none, selected := true,
    show_in_front := false, display_type := "TEXTURED", energy := none }

/-- The `light.data.energy = 500` assignment: update the object named
"Light" (and, through the shared light data, every object named so). -/
def setLightEnergy (o : SceneObject) : SceneObject :=
  if o.name == "Light" then { o with energy := some 500 } else o

/-- Embeds `add_camera_light()`: create a camera only when no object named
"Camera" exists, make it the scene camera, create a light only when no
object named "Light" exists, and set the light's energy to 500. -/
noncomputable def add_camera_light (s : Scene) : Scene :=
  let s1 :=
    if s.objects.any (fun o => o.name == "Camera") then s
    else { s with objects := s.objects ++ [cameraObj] }
  let s2 := { s1 with camera := some "Camera" }
  let s3 :=
    if s2.objects.any (fun o => o.name == "Light") then s2
    else { s2 with objects := s2.objects ++ [lightObj] }
  { s3 with objects := s3.objects.map setLightEnergy }

/-- Embeds `bpy.ops.object.select_all(action='DESELECT')`. -/
def deselect_all (s : Scene) : Scene :=
  { s with objects := s.objects.map (fun o => { o with selected := false }) }

/-- Embeds `export_mesh(obj_list, filename)`: deselect all, select the listed
objects, run the OBJ exporter on the selection, deselect them again. -/
def export_mesh (s : Scene) (objNames : List String) (filename : String) : Scene :=
  let s1 := deselect_all s
  let s2 :=
    { s1 with objects := s1.objects.map (fun (o : SceneObject) =>
        if objNames.contains o.name then { o with selected := true } else o) }
  let s3 := { s2 with files := s2.files ++ [export_path ++ filename] }
  { s3 with objects := s3.objects.map (fun (o : SceneObject) =>
      if objNames.contains o.name then { o with selected := false } else o) }

/-- The world-axis rotation matrix selected by `orient_axis`. -/
noncomputable def axisMat (orient_axis : String) (value : ℝ) :
    Matrix (Fin 3) (Fin 3) ℝ :=
  if orient_axis == "X" then rotX value
  else if orient_axis == "Y" then rotY value
  else rotZ value

/-- The effect of a world-origin rotation on one transform. -/
noncomputable def Transform.rotate (t : Transform) (r : Matrix (Fin 3) (Fin 3) ℝ) :
    Transform :=
  { rot := r * t.rot, loc := r.mulVec t.loc }

/-- Embeds `bpy.ops.transform.rotate(value, orient_axis)`: rotate every selected
object about the world origin. -/
noncomputable def transform_rotate (value : ℝ) (orient_axis : String) (s : Scene) :
    Scene :=
  { s with objects := s.objects.map (fun o =>
      if o.selected then { o with transform := o.transform.rotate (axisMat orient_axis value) }
      else o) }

/-- Embeds `render_view(name, cam, target, rotation)`: deselect everything,
select every non-camera object, rotate the selection by the X, Y and Z
Euler components in that order, render a still PNG named after the view,
then rotate back by the negated components in Z, Y, X order. -/
noncomputable def render_view (name : String) (cam target : SceneObject)
    (rotation : ℝ × ℝ × ℝ) (s : Scene) : Scene :=
  let s1 := deselect_all s
  let s2 :=
    { s1 with objects := s1.objects.map (fun o =>
        if o.objType ≠ ObjType.CAMERA then { o with selected := true } else o) }
  let s3 := transform_rotate rotation.1 "X" s2
  let s4 := transform_rotate rotation.2.1 "Y" s3
  let s5 := transform_rotate rotation.2.2 "Z" s4
  let s6 :=
    { s5 with renders := s5.renders ++ [export_path ++ "sphere_" ++ name ++ ".png"] }
  let s7 := transform_rotate (-rotation.2.2) "Z" s6
  let s8 := transform_rotate (-rotation.2.1) "Y" s7
  transform_rotate (-rotation.1) "X" s8

/-- Bind a material into slot 0 of an object's mesh data
(`obj.data.materials`); a no-op for an object without mesh data. -/
def bindObjMat (s : Scene) (obj : SceneObject) (mat : Material) : Scene :=
  match obj.data with
  | some mid => bindMeshMat s mid mat
  | none => s

/-! ### The main script -/

/-- The MAIN SCRIPT section, run on a fresh scene: `delete_all()`, the
sphere block, outline, hoops, parenting, mesh export, camera/light and
the four render views.  The `add_outline` call is `getD`-totalised; on
this run the sphere is mesh-backed, so the default branch is dead. -/
noncomputable def finalState : Scene :=
  let s0 := delete_all emptyScene
  -- 1. Make sphere
  let made := primitive_uv_sphere_add s0 SPHERE_RADIUS SPHERE_SEGMENTS SPHERE_SEGMENTS
  let sphere0 := made.2
  -- sphere.name = "core_sphere"; sphere["shape_tag"] = "sphere_core"
  let sphere1 := { sphere0 with name := "core_sphere", shape_tag := some "sphere_core" }
  let s1 := updateObj made.1 sphere0.name
    (fun o => { o with name := "core_sphere", shape_tag := some "sphere_core" })
  let madeMat := make_materialOp s1 "sphere_transparent" (1, 1, 1, OPACITY) true
  let s2 := bindObjMat madeMat.1 sphere1 madeMat.2
  -- 2. Outline
  let outlined := (add_outline s2 sphere1 OUTLINE_THICKNESS).getD (s2, sphere1)
  let outline0 := outlined.2
  -- outline["shape_tag"] = "sphere_outline" (the outline is already linked)
  let outline1 := { outline0 with shape_tag := some "sphere_outline" }
  let s3 := updateObj outlined.1 outline0.name
    (fun o => { o with shape_tag := some "sphere_outline" })
  -- 3. Hoops
  let hooped1 := add_hoop s3 SPHERE_RADIUS HOOP_THICKNESS "Z"
  let hoop1 := hooped1.2
  let hooped2 := add_hoop hooped1.1 SPHERE_RADIUS HOOP_THICKNESS "X"
  let hoop2 := hooped2.2
  -- Parent all to sphere
  let s4 := [outline1, hoop1, hoop2].foldl
    (fun acc child => updateObj acc child.name (fun o => { o with parent := some sphere1.name }))
    hooped2.1
  -- 4. Export mesh (all together)
  let s5 := export_mesh s4 [sphere1.name, outline1.name, hoop1.name, hoop2.name]
    "core_sphere.obj"
  -- 5. Render images from multiple angles
  let s6 := add_camera_light s5
  let cam := (s6.objects.find? (fun o => o.name == "Camera")).getD cameraObj
  let s7 := deselect_all s6
  let s8 := updateObj s7 sphere1.name (fun o => { o with selected := true })
  let s9 := updateObj s8 outline1.name (fun o => { o with selected := true })
  let s10 := updateObj s9 hoop1.name (fun o => { o with selected := true })
  let s11 := updateObj s10 hoop2.name (fun o => { o with selected := true })
  RENDER_VIEWS.foldl (fun acc vr => render_view vr.1 cam sphere1 vr.2 acc) s11

/-! ### The label CSV (step 6 of the main script) -/

/-- The successive `f.write` arguments of the label-CSV block. -/
def labelWrites : List String :=
  ["object,shape_tag\n",
   "core_sphere,sphere_core\n",
   "core_sphere_outline,sphere_outline\n",
   "hoop_Z,hoop_Z\n",
   "hoop_X,hoop_X\n"]

/-- The full content of `core_sphere_labels.csv`. -/
def labelFileContent : String := String.join labelWrites

/-- The four data rows of the label CSV, as (object name, shape tag). -/
def labelDataRows : List (String × String) :=
  [("core_sphere", "sphere_core"),
   ("core_sphere_outline", "sphere_outline"),
   ("hoop_Z", "hoop_Z"),
   ("hoop_X", "hoop_X")]

/-! ### Concrete sample inputs for instantiating the theorems -/

/-- A sample mesh data block, as the sphere primitive would create it. -/
def sampleMesh : Mesh :=
  { prim := Prim.uvSphere 1 64 64, normalsFlipped := false, materials := [] }

/-- A sample mesh-backed scene object. -/
noncomputable def sampleObj : SceneObject :=
  { name := "core_sphere", objType := ObjType.MESH, data := some 0,
    transform := Transform.id0, scale := (1, 1, 1),
    shape_tag := some "sphere_core", parent := none, selected := true,
    show_in_front := false, display_type := "TEXTURED", energy := none }

/-- A sample scene holding `sampleObj` and its mesh. -/
noncomputable def sampleScene : Scene :=
  { objects := [sampleObj], meshes := [(0, sampleMesh)], nextMeshId := 1,
    materials := [], camera := none, renders := [], files := [] }

/-! ## Theorems -/

theorem rotX_mul_rotX (a b : ℝ) : rotX a * rotX b = rotX (a + b) := by
  ext i j
  fin_cases i <;> fin_cases j <;>
    simp [rotX, Matrix.mul_apply, Fin.sum_univ_three, Matrix.vecHead, Matrix.vecTail,
      Real.cos_add, Real.sin_add] <;>
    ring

theorem rotY_mul_rotY (a b : ℝ) : rotY a * rotY b = rotY (a + b) := by
  ext i j
  fin_cases i <;> fin_cases j <;>
    simp [rotY, Matrix.mul_apply, Fin.sum_univ_three, Matrix.vecHead, Matrix.vecTail,
      Real.cos_add, Real.sin_add] <;>
    ring

theorem rotZ_mul_rotZ (a b : ℝ) : rotZ a * rotZ b = rotZ (a + b) := by
  ext i j
  fin_cases i <;> fin_cases j <;>
    simp [rotZ, Matrix.mul_apply, Fin.sum_univ_three, Matrix.vecHead, Matrix.vecTail,
      Real.cos_add, Real.sin_add] <;>
    ring

theorem rotX_zero : rotX 0 = 1 := by
  ext i j
  fin_cases i <;> fin_cases j <;>
    simp [rotX, Matrix.one_apply, Matrix.vecHead, Matrix.vecTail]

theorem rotY_zero : rotY 0 = 1 := by
  ext i j
  fin_cases i <;> fin_cases j <;>
    simp [rotY, Matrix.one_apply, Matrix.vecHead, Matrix.vecTail]

theorem rotZ_zero : rotZ 0 = 1 := by
  ext i j
  fin_cases i <;> fin_cases j <;>
    simp [rotZ, Matrix.one_apply, Matrix.vecHead, Matrix.vecTail]

theorem rotX_neg_mul (θ : ℝ) : rotX (-θ) * rotX θ = 1 := by
  rw [rotX_mul_rotX, neg_add_cancel, rotX_zero]

theorem rotY_neg_mul (θ : ℝ) : rotY (-θ) * rotY θ = 1 := by
  rw [rotY_mul_rotY, neg_add_cancel, rotY_zero]

theorem rotZ_neg_mul (θ : ℝ) : rotZ (-θ) * rotZ θ = 1 := by
  rw [rotZ_mul_rotZ, neg_add_cancel, rotZ_zero]

theorem radians_90 : radians 90 = Real.pi / 2 := by
  unfold radians; ring

/-! ### C2: the label CSV content -/

/-- C2: the label writer produces `core_sphere_labels.csv` whose content
is exactly the header line `object,shape_tag` followed by exactly 4 data
rows in the fixed order (core_sphere, sphere_core),
(core_sphere_outline, sphere_outline), (hoop_Z, hoop_Z),
(hoop_X, hoop_X). -/
theorem label_csv_content_exact :
    labelFileContent =
      "object,shape_tag\n" ++ "core_sphere,sphere_core\n" ++
      "core_sphere_outline,sphere_outline\n" ++ "hoop_Z,hoop_Z\n" ++ "hoop_X,hoop_X\n" ∧
    labelWrites = "object,shape_tag\n" ::
      labelDataRows.map (fun r => r.1 ++ "," ++ r.2 ++ "\n") ∧
    labelDataRows =
      [("core_sphere", "sphere_core"), ("core_sphere_outline", "sphere_outline"),
       ("hoop_Z", "hoop_Z"), ("hoop_X", "hoop_X")] ∧
    labelDataRows.length = 4 := by
  refine ⟨rfl, rfl, rfl, rfl⟩

/-! ### C4: outline and hoop materials are not opaque-blended -/

/-- C4 counterexample: the materials created for the outline and the
hoops do NOT have an opaque blend mode — `make_material` is called
without the `transparent` argument, which defaults to `True`, so both get
the alpha-blended mode. -/
theorem outline_hoop_blend_counterexample :
    (make_material "outline_black" (0, 0, 0, 1)).blend_method = BlendMethod.BLEND ∧
    (make_material "hoop_black" (0, 0, 0, 1)).blend_method = BlendMethod.BLEND ∧
    BlendMethod.BLEND ≠ BlendMethod.OPAQUE := by
  decide

/-- C4 amended: the outline and hoop materials have base color black and
alpha 1 (fully opaque in effect), but their blend mode is alpha-blended
with back-face transparency enabled — the same blend settings as the
sphere's material; only the alpha value (1 versus 0.4) differs. -/
theorem outline_hoop_materials_amended :
    (make_material "outline_black" (0, 0, 0, 1)).base_color = (0, 0, 0, 1) ∧
    (make_material "outline_black" (0, 0, 0, 1)).alpha = 1 ∧
    (make_material "outline_black" (0, 0, 0, 1)).blend_method = BlendMethod.BLEND ∧
    (make_material "outline_black" (0, 0, 0, 1)).show_transparent_back = true ∧
    (make_material "hoop_black" (0, 0, 0, 1)).base_color = (0, 0, 0, 1) ∧
    (make_material "hoop_black" (0, 0, 0, 1)).alpha = 1 ∧
    (make_material "hoop_black" (0, 0, 0, 1)).blend_method = BlendMethod.BLEND ∧
    (make_material "hoop_black" (0, 0, 0, 1)).show_transparent_back = true ∧
    (make_material "sphere_transparent" (1, 1, 1, OPACITY) true).alpha = OPACITY ∧
    (make_material "sphere_transparent" (1, 1, 1, OPACITY) true).blend_method
      = BlendMethod.BLEND ∧
    OPACITY < 1 := by
  refine ⟨rfl, rfl, rfl, rfl, rfl, rfl, rfl, rfl, rfl, rfl, ?_⟩
  norm_num [OPACITY]

/-! ### C5: make_material does not bind; the callers do -/

/-- C5 counterexample: calling `make_material` (via its effect on the
material collection) leaves every object's mesh material slots untouched:
in `sampleScene` the object's mesh has no slots, and after the call it
still has none — the created material was not bound into slot 0. -/
theorem make_material_no_binding_counterexample :
    ((make_materialOp sampleScene "sphere_transparent" (1, 1, 1, OPACITY) true).1.mesh?
        0).map Mesh.materials = some [] ∧
    ¬ ((make_materialOp sampleScene "sphere_transparent" (1, 1, 1, OPACITY) true).1.mesh?
        0).map Mesh.materials
      = some [make_material "sphere_transparent" (1, 1, 1, OPACITY) true] := by
  constructor
  · rfl
  · intro h
    simp [make_materialOp, sampleScene, Scene.mesh?, sampleMesh] at h

/-- C5 amended: `make_material` only creates and returns the material,
leaving every object and mesh unchanged; each call site (the sphere
block, `add_outline`, `add_hoop`) separately binds the created material
into slot 0 of its target's mesh, replacing any existing slot-0 material
or appending it if the mesh has no slot — `add_hoop`'s fresh torus has no
slot, so its black material is appended as the only slot. -/
theorem make_material_binding_amended (s : Scene) (nm : String)
    (rgba : ℚ × ℚ × ℚ × ℚ) (tr : Bool) (m x : Material) (rest : List Material)
    (r t : ℚ) (ax : String) :
    (make_materialOp s nm rgba tr).1.objects = s.objects ∧
    (make_materialOp s nm rgba tr).1.meshes = s.meshes ∧
    bindSlot0 [] m = [m] ∧
    bindSlot0 (x :: rest) m = m :: rest ∧
    ((add_hoop emptyScene r t ax).1.mesh? 0).map Mesh.materials
      = some [make_material "hoop_black" (0, 0, 0, 1)] := by
  refine ⟨rfl, rfl, rfl, rfl, ?_⟩
  simp [add_hoop, make_materialOp, bindMeshMat, bindMeshAt, Scene.mesh?, emptyScene, bindSlot0]

/-! ### C6: hoop geometry and orientation -/

/-- C6: `add_hoop(radius, thickness, axis)` creates a torus with major
radius = the given radius and minor radius = the given thickness; for
axis Z no rotation is applied, and for axis X (resp. Y) the hoop's
orientation is exactly one 90-degree (π/2 radian) rotation about the
Y (resp. X) axis — no partial tilt. -/
theorem add_hoop_orientation (s : Scene) (r t : ℚ) :
    (add_hoop s r t "Z").2.transform.rot = 1 ∧
    (add_hoop s r t "Z").2.transform.loc = ![0, 0, 0] ∧
    (add_hoop s r t "X").2.transform.rot = rotY (Real.pi / 2) ∧
    (add_hoop s r t "Y").2.transform.rot = rotX (Real.pi / 2) ∧
    (∀ ax : String, ((add_hoop emptyScene r t ax).1.mesh? 0).map Mesh.prim
      = some (Prim.torus r t 96 16)) := by
  refine ⟨rfl, rfl, ?_, ?_, ?_⟩
  · show eulerXYZ 0 (radians 90) 0 = rotY (Real.pi / 2)
    rw [eulerXYZ, radians_90, rotZ_zero, rotX_zero, one_mul, mul_one]
  · show eulerXYZ (radians 90) 0 0 = rotX (Real.pi / 2)
    rw [eulerXYZ, radians_90, rotZ_zero, rotY_zero, one_mul, one_mul]
  · intro ax
    simp [add_hoop, make_materialOp, bindMeshMat, bindMeshAt, Scene.mesh?, emptyScene, bindSlot0]

/-! ### C7: outline scale -/

/-- C7: the outline object produced by `add_outline(obj, thickness)` has
uniform scale `1 + thickness` on all three axes; with
`OUTLINE_THICKNESS = 0.04` the factor is exactly 1.04. -/
theorem add_outline_scale (s : Scene) (obj : SceneObject) (t : ℚ)
    (p : Scene × SceneObject) (h : add_outline s obj t = some p) :
    p.2.scale = (1 + t, 1 + t, 1 + t) ∧
    (t = OUTLINE_THICKNESS → p.2.scale = (1.04, 1.04, 1.04)) := by
  rcases hd : obj.data with _ | mid
  · rw [add_outline, hd] at h
    exact absurd h (by simp)
  · rcases hm : s.mesh? mid with _ | μ
    · rw [add_outline, hd] at h
      simp only [hm] at h
      exact absurd h (by simp)
    · rw [add_outline, hd] at h
      simp only [hm, Option.some.injEq] at h
      subst h
      refine ⟨rfl, ?_⟩
      rintro rfl
      show ((1 : ℚ) + OUTLINE_THICKNESS, (1 : ℚ) + OUTLINE_THICKNESS,
            (1 : ℚ) + OUTLINE_THICKNESS) = (1.04, 1.04, 1.04)
      norm_num [OUTLINE_THICKNESS]

/-- C7 witness: on `sampleScene`, the outline of `sampleObj` with the
script's `OUTLINE_THICKNESS` has scale exactly (1.04, 1.04, 1.04). -/
theorem add_outline_scale_witness :
    ((add_outline sampleScene sampleObj OUTLINE_THICKNESS).getD
        (sampleScene, sampleObj)).2.scale = (1.04, 1.04, 1.04) :=
  (add_outline_scale sampleScene sampleObj OUTLINE_THICKNESS
      ((add_outline sampleScene sampleObj OUTLINE_THICKNESS).getD
        (sampleScene, sampleObj)) rfl).2 rfl

/-! ### C8: delete_all -/

theorem filter_unselected_after_select (l : List SceneObject) :
    ((l.map (fun o => { o with selected := true })).filter (fun o => !o.selected)) = [] := by
  induction l with
  | nil => rfl
  | cons a t ih => simp [ih]

theorem delete_all_eq (s : Scene) :
    delete_all s =
      { objects := [], meshes := [], nextMeshId := s.nextMeshId,
        materials := s.materials, camera := s.camera,
        renders := s.renders, files := s.files } := by
  unfold delete_all
  simp only [filter_unselected_after_select]
  simp [Scene.users]

/-- C8: `delete_all` removes every object, purges every mesh data block
with zero remaining users (after the deletion that is all of them), is
idempotent, and on an already-empty scene it is a total no-op leaving the
object count at 0. -/
theorem delete_all_idempotent (s : Scene) :
    (delete_all s).objects.length = 0 ∧
    (delete_all s).meshes = [] ∧
    delete_all (delete_all s) = delete_all s ∧
    delete_all emptyScene = emptyScene := by
  refine ⟨?_, ?_, ?_, ?_⟩ <;> simp [delete_all_eq, emptyScene]

/-! ### C9: add_camera_light -/

theorem setLightEnergy_name (o : SceneObject) : (setLightEnergy o).name = o.name := by
  unfold setLightEnergy
  by_cases h : o.name == "Light" <;> simp [h]

theorem setLightEnergy_idem (o : SceneObject) :
    setLightEnergy (setLightEnergy o) = setLightEnergy o := by
  unfold setLightEnergy
  by_cases h : o.name == "Light" <;> simp [h]

theorem countP_name_setLightEnergy (l : List SceneObject) (nm : String) :
    (l.map setLightEnergy).countP (fun o => o.name == nm)
      = l.countP (fun o => o.name == nm) := by
  induction l with
  | nil => rfl
  | cons a t ih => simp [List.countP_cons, ih, setLightEnergy_name]

theorem any_name_setLightEnergy (l : List SceneObject) (nm : String) :
    (l.map setLightEnergy).any (fun o => o.name == nm)
      = l.any (fun o => o.name == nm) := by
  induction l with
  | nil => rfl
  | cons a t ih => simp [ih, setLightEnergy_name]

theorem all_energy_setLightEnergy (l : List SceneObject) :
    ((l.map setLightEnergy).filter (fun o => o.name == "Light")).all
      (fun o => o.energy == some 500) = true := by
  induction l with
  | nil => rfl
  | cons a t ih =>
      by_cases h : a.name == "Light" <;>
        simp [setLightEnergy, h, List.filter_cons, ih]

theorem cameraObj_is_camera : (cameraObj.name == "Camera") = true := rfl

theorem cameraObj_not_light : (cameraObj.name == "Light") = false := rfl

theorem lightObj_is_light : (lightObj.name == "Light") = true := rfl

theorem lightObj_not_camera : (lightObj.name == "Camera") = false := rfl

theorem countP_name_one_of_any (l : List SceneObject) (nm : String)
    (hle : l.countP (fun o => o.name == nm) ≤ 1)
    (hany : l.any (fun o => o.name == nm) = true) :
    l.countP (fun o => o.name == nm) = 1 := by
  rcases List.any_eq_true.mp hany with ⟨a, ha, hpa⟩
  have : 0 < l.countP (fun o => o.name == nm) :=
    List.countP_pos_iff.mpr ⟨a, ha, hpa⟩
  omega

/-- Closed form for `add_camera_light`: the camera is appended only when
no "Camera" exists, the light only when no "Light" exists, and the
energy assignment maps over the resulting object list. -/
theorem add_camera_light_eq (s : Scene) :
    add_camera_light s =
      { s with
        camera := some "Camera",
        objects :=
          ((if s.objects.any (fun o => o.name == "Camera") then s.objects
            else s.objects ++ [cameraObj]) ++
           (if s.objects.any (fun o => o.name == "Light") then []
            else [lightObj])).map setLightEnergy } := by
  unfold add_camera_light
  by_cases hC : s.objects.any (fun o => o.name == "Camera") <;>
  by_cases hL : s.objects.any (fun o => o.name == "Light") <;>
    simp [hC, hL, cameraObj_not_light]

/-- C9: `add_camera_light` reuses an existing "Camera"/"Light" object
instead of duplicating it: starting from a scene with at most one of
each, one call leaves exactly one of each, a second call changes nothing
further (so any number of calls yields the same scene), and every object
named "Light" ends with energy 500. -/
theorem add_camera_light_idempotent (s : Scene)
    (hc : s.objects.countP (fun o => o.name == "Camera") ≤ 1)
    (hl : s.objects.countP (fun o => o.name == "Light") ≤ 1) :
    (add_camera_light s).objects.countP (fun o => o.name == "Camera") = 1 ∧
    (add_camera_light s).objects.countP (fun o => o.name == "Light") = 1 ∧
    add_camera_light (add_camera_light s) = add_camera_light s ∧
    ((add_camera_light s).objects.filter (fun o => o.name == "Light")).all
      (fun o => o.energy == some 500) = true := by
  have hmapmap : ∀ l : List SceneObject,
      (l.map setLightEnergy).map setLightEnergy = l.map setLightEnergy := by
    intro l
    rw [List.map_map]
    exact List.map_congr_left (fun a _ => setLightEnergy_idem a)
  refine ⟨?_, ?_, ?_, ?_⟩
  · rw [add_camera_light_eq]
    by_cases hC : s.objects.any (fun o => o.name == "Camera") <;>
      simp only [hC, if_true, if_false, countP_name_setLightEnergy,
        List.countP_append, Bool.false_eq_true, ite_true, ite_false]
    · have h1 := countP_name_one_of_any s.objects "Camera" hc hC
      by_cases hL : s.objects.any (fun o => o.name == "Light") <;>
        simp [hL, h1, List.countP_cons, lightObj_not_camera]
    · have h0 : s.objects.countP (fun o => o.name == "Camera") = 0 := by
        rw [List.countP_eq_zero]
        intro a ha hpa
        exact hC (List.any_eq_true.mpr ⟨a, ha, hpa⟩)
      by_cases hL : s.objects.any (fun o => o.name == "Light") <;>
        simp [hL, h0, List.countP_cons, lightObj_not_camera, cameraObj_is_camera]
  · rw [add_camera_light_eq]
    by_cases hL : s.objects.any (fun o => o.name == "Light") <;>
      simp only [hL, if_true, if_false, countP_name_setLightEnergy,
        List.countP_append, Bool.false_eq_true, ite_true, ite_false]
    · have h1 := countP_name_one_of_any s.objects "Light" hl hL
      by_cases hC : s.objects.any (fun o => o.name == "Camera") <;>
        simp [hC, h1, List.countP_cons, cameraObj_not_light]
    · have h0 : s.objects.countP (fun o => o.name == "Light") = 0 := by
        rw [List.countP_eq_zero]
        intro a ha hpa
        exact hL (List.any_eq_true.mpr ⟨a, ha, hpa⟩)
      by_cases hC : s.objects.any (fun o => o.name == "Camera") <;>
        simp [hC, h0, List.countP_cons, cameraObj_not_light, lightObj_is_light]
  · rw [add_camera_light_eq, add_camera_light_eq]
    by_cases hC : s.objects.any (fun o => o.name == "Camera") <;>
    by_cases hL : s.objects.any (fun o => o.name == "Light") <;>
      simp only [hC, hL, eq_self_iff_true, if_true, if_false, ite_true, ite_false,
        Bool.false_eq_true, List.append_nil, List.map_append, List.map_cons,
        List.map_nil, any_name_setLightEnergy, List.any_append, List.any_cons,
        List.any_nil, setLightEnergy_name, cameraObj_is_camera, cameraObj_not_light,
        lightObj_is_light, lightObj_not_camera, Bool.or_true, Bool.true_or,
        Bool.or_false, Bool.false_or, hmapmap, setLightEnergy_idem]
  · rw [add_camera_light_eq]
    exact all_energy_setLightEnergy _

/-- C9 witness: on the empty scene the at-most-one hypotheses hold and
one call creates exactly one camera and one light at energy 500. -/
theorem add_camera_light_idempotent_witness :
    (emptyScene.objects.countP (fun o => o.name == "Camera") ≤ 1 ∧
     emptyScene.objects.countP (fun o => o.name == "Light") ≤ 1) ∧
    ((add_camera_light emptyScene).objects.countP (fun o => o.name == "Camera") = 1 ∧
     (add_camera_light emptyScene).objects.countP (fun o => o.name == "Light") = 1 ∧
     add_camera_light (add_camera_light emptyScene) = add_camera_light emptyScene ∧
     ((add_camera_light emptyScene).objects.filter (fun o => o.name == "Light")).all
       (fun o => o.energy == some 500) = true) :=
  ⟨⟨by decide, by decide⟩,
   add_camera_light_idempotent emptyScene (by decide) (by decide)⟩

/-! ### C10: add_outline leaves the source mesh untouched -/

theorem find?_map_fst_preserving (l : List (Nat × Mesh)) (g : Nat × Mesh → Nat × Mesh)
    (id : Nat) (hfst : ∀ e, (g e).1 = e.1) (hid : ∀ e, e.1 = id → g e = e) :
    (l.map g).find? (fun e => e.1 == id) = l.find? (fun e => e.1 == id) := by
  induction l with
  | nil => rfl
  | cons a t ih =>
      simp only [List.map_cons]
      by_cases hp : (a.1 == id) = true
      · have hga : ((g a).1 == id) = true := by rw [hfst]; exact hp
        rw [@List.find?_cons_of_pos _ (fun e => e.1 == id) (g a) (t.map g) hga,
          @List.find?_cons_of_pos _ (fun e => e.1 == id) a t hp,
          hid a (by simpa using hp)]
      · have hga : ¬ ((g a).1 == id) = true := by rw [hfst]; exact hp
        rw [@List.find?_cons_of_neg _ (fun e => e.1 == id) (g a) (t.map g) hga,
          @List.find?_cons_of_neg _ (fun e => e.1 == id) a t hp, ih]

theorem find?_fresh_append (l : List (Nat × Mesh)) (nid : Nat) (m : Nat × Mesh)
    (hm : (m.1 == nid) = true)
    (hfresh : ∀ e ∈ l, ¬ (e.1 == nid) = true) :
    (l ++ [m]).find? (fun e => e.1 == nid) = some m := by
  induction l with
  | nil =>
      simp only [List.nil_append]
      exact @List.find?_cons_of_pos _ (fun e => e.1 == nid) m [] hm
  | cons a t ih =>
      rw [List.cons_append,
        @List.find?_cons_of_neg _ (fun e => e.1 == nid) a (t ++ [m])
          (hfresh a (List.mem_cons_self a t))]
      exact ih (fun e he => hfresh e (List.mem_cons_of_mem a he))

/-- C10: `add_outline` copies the source mesh before mutating, so the
source object's own mesh data block — its face normals and its material
slots — is unchanged by the call; the source object list is only
extended; and only the duplicate's fresh mesh copy gets flipped normals
and the black material bound into slot 0. -/
theorem add_outline_source_unchanged (s : Scene) (obj : SceneObject)
    (t : ℚ) (mid : Nat) (μ : Mesh) (p : Scene × SceneObject)
    (hdata : obj.data = some mid)
    (hμ : s.mesh? mid = some μ)
    (hfresh : ∀ e ∈ s.meshes, e.1 < s.nextMeshId)
    (h : add_outline s obj t = some p) :
    p.1.mesh? mid = some μ ∧
    p.1.objects = s.objects ++ [p.2] ∧
    p.2.data = some s.nextMeshId ∧
    p.1.mesh? s.nextMeshId =
      some { μ with normalsFlipped := !μ.normalsFlipped,
                    materials := bindSlot0 μ.materials
                      (make_material "outline_black" (0, 0, 0, 1)) } := by
  have hfind : s.meshes.find? (fun e => e.1 == mid) = some (mid, μ) := by
    unfold Scene.mesh? at hμ
    rcases hf : s.meshes.find? (fun e => e.1 == mid) with _ | e
    · rw [hf] at hμ
      exact absurd hμ (by simp)
    · rw [hf] at hμ
      have he2 : e.2 = μ := by simpa using hμ
      have he1 : e.1 = mid := by simpa using List.find?_some hf
      cases e
      simp_all
  have hmem : (mid, μ) ∈ s.meshes := List.mem_of_find?_eq_some hfind
  have hmidlt : mid < s.nextMeshId := hfresh _ hmem
  have hmidne : mid ≠ s.nextMeshId := Nat.ne_of_lt hmidlt
  rw [add_outline, hdata] at h
  simp only [hμ, Option.some.injEq] at h
  subst h
  have hflip_fst : ∀ e, (flipMeshAt s.nextMeshId e).1 = e.1 := by
    intro e
    unfold flipMeshAt
    by_cases hc : (e.1 == s.nextMeshId) = true <;> simp [hc]
  have hbind_fst : ∀ e, (bindMeshAt (make_material "outline_black" (0, 0, 0, 1))
      s.nextMeshId e).1 = e.1 := by
    intro e
    unfold bindMeshAt
    by_cases hc : (e.1 == s.nextMeshId) = true <;> simp [hc]
  have hflip_ne : ∀ e : Nat × Mesh, e.1 = mid → flipMeshAt s.nextMeshId e = e := by
    intro e he
    unfold flipMeshAt
    rw [if_neg]
    simp [he, hmidne]
  have hbind_ne : ∀ e : Nat × Mesh, e.1 = mid →
      bindMeshAt (make_material "outline_black" (0, 0, 0, 1)) s.nextMeshId e = e := by
    intro e he
    unfold bindMeshAt
    rw [if_neg]
    simp [he, hmidne]
  refine ⟨?_, ?_, ?_, ?_⟩
  · simp only [Scene.mesh?, bindMeshMat, make_materialOp]
    rw [find?_map_fst_preserving _ _ _ hbind_fst hbind_ne,
      find?_map_fst_preserving _ _ _ hflip_fst hflip_ne,
      List.find?_append, hfind]
    rfl
  · rfl
  · rfl
  · simp only [Scene.mesh?, bindMeshMat, make_materialOp]
    rw [List.map_map, List.map_append]
    simp only [List.map_cons, List.map_nil]
    rw [find?_fresh_append _ _ _
        (by simp [Function.comp_apply, hbind_fst, hflip_fst])
        (fun e he => by
          rcases List.mem_map.mp he with ⟨a, ha, rfl⟩
          have hlt : a.1 < s.nextMeshId := hfresh a ha
          simp only [Function.comp_apply]
          rw [hbind_fst, hflip_fst]
          simp [Nat.ne_of_lt hlt])]
    simp [flipMeshAt, bindMeshAt]

/-- C10 witness: on `sampleScene`, after outlining `sampleObj`, the
source mesh block 0 is unchanged and block 1 is the flipped copy with the
black material in slot 0. -/
theorem add_outline_source_unchanged_witness :
    ((add_outline sampleScene sampleObj OUTLINE_THICKNESS).getD
        (sampleScene, sampleObj)).1.mesh? 0 = some sampleMesh ∧
    ((add_outline sampleScene sampleObj OUTLINE_THICKNESS).getD
        (sampleScene, sampleObj)).1.objects
      = sampleScene.objects ++
        [((add_outline sampleScene sampleObj OUTLINE_THICKNESS).getD
            (sampleScene, sampleObj)).2] ∧
    ((add_outline sampleScene sampleObj OUTLINE_THICKNESS).getD
        (sampleScene, sampleObj)).2.data = some sampleScene.nextMeshId ∧
    ((add_outline sampleScene sampleObj OUTLINE_THICKNESS).getD
        (sampleScene, sampleObj)).1.mesh? sampleScene.nextMeshId =
      some { sampleMesh with
              normalsFlipped := !sampleMesh.normalsFlipped,
              materials := bindSlot0 sampleMesh.materials
                (make_material "outline_black" (0, 0, 0, 1)) } :=
  add_outline_source_unchanged sampleScene sampleObj OUTLINE_THICKNESS 0 sampleMesh
    ((add_outline sampleScene sampleObj OUTLINE_THICKNESS).getD (sampleScene, sampleObj))
    rfl rfl (by decide) rfl

/-! ### C1: the rotate/render/un-rotate round trip -/

theorem mul_cancel_left {A B : Matrix (Fin 3) (Fin 3) ℝ} (h : A * B = 1)
    (X : Matrix (Fin 3) (Fin 3) ℝ) : A * (B * X) = X := by
  rw [← mul_assoc, h, one_mul]

theorem mul_cancel_right {B C : Matrix (Fin 3) (Fin 3) ℝ} (h : B * C = 1)
    (X : Matrix (Fin 3) (Fin 3) ℝ) : X * B * C = X := by
  rw [mul_assoc, h, mul_one]

theorem axisMat_X (v : ℝ) : axisMat "X" v = rotX v := rfl

theorem axisMat_Y (v : ℝ) : axisMat "Y" v = rotY v := rfl

theorem axisMat_Z (v : ℝ) : axisMat "Z" v = rotZ v := rfl

/-- Exact inverse replay on a single transform: rotating by X, Y, Z and
then by the negated angles in Z, Y, X order restores the transform. -/
theorem rotate_roundTrip (a b c : ℝ) (tr : Transform) :
    ((((((tr.rotate (rotX a)).rotate (rotY b)).rotate (rotZ c)).rotate
        (rotZ (-c))).rotate (rotY (-b))).rotate (rotX (-a))) = tr := by
  obtain ⟨R, v⟩ := tr
  simp only [Transform.rotate, Matrix.mulVec_mulVec, Transform.mk.injEq]
  constructor
  · rw [mul_cancel_left (rotZ_neg_mul c), mul_cancel_left (rotY_neg_mul b),
      mul_cancel_left (rotX_neg_mul a)]
  · rw [mul_cancel_left (rotZ_neg_mul c), mul_cancel_left (rotY_neg_mul b),
      rotX_neg_mul, Matrix.one_mulVec]

/-- C1: for every view in the preset view list, `render_view` rotates
every non-camera object by the Euler components in X, Y, Z order and,
after rendering, applies the negated components in Z, Y, X order, so that
under exact arithmetic every object's transform equals its pre-render
value. -/
theorem render_view_round_trip (v : String × ℝ × ℝ × ℝ)
    (hv : v ∈ RENDER_VIEWS) (cam target : SceneObject) (s : Scene) :
    (render_view v.1 cam target v.2 s).objects.map (fun o => o.transform)
      = s.objects.map (fun o => o.transform) := by
  unfold render_view transform_rotate deselect_all
  simp only [List.map_map]
  refine List.map_congr_left ?_
  intro o _
  simp only [Function.comp_apply]
  by_cases h : o.objType = ObjType.CAMERA
  · simp [h]
  · simp [h, axisMat_X, axisMat_Y, axisMat_Z, rotate_roundTrip]

/-- C1 witness: the first preset view ("front") is in the list and its
render on `sampleScene` leaves all transforms unchanged. -/
theorem render_view_round_trip_witness :
    (("front", ((0 : ℝ), (0 : ℝ), (0 : ℝ))) ∈ RENDER_VIEWS) ∧
    (render_view "front" cameraObj sampleObj ((0 : ℝ), (0 : ℝ), (0 : ℝ))
        sampleScene).objects.map (fun o => o.transform)
      = sampleScene.objects.map (fun o => o.transform) :=
  ⟨by simp [RENDER_VIEWS],
   render_view_round_trip ("front", ((0 : ℝ), (0 : ℝ), (0 : ℝ)))
     (by simp [RENDER_VIEWS]) cameraObj sampleObj sampleScene⟩

/-! ### C3: the label rows match the scene objects -/

/-- C3: after the pipeline runs, the label CSV has as many data rows as
there are tracked (mesh) scene objects — 4 — and every row (name, tag)
names a scene object carrying exactly that `shape_tag` annotation. -/
theorem labels_match_scene :
    labelDataRows.length
      = (finalState.objects.filter (fun o => o.objType == ObjType.MESH)).length ∧
    labelDataRows.all (fun r =>
      finalState.objects.any (fun o =>
        o.name == r.1 && o.shape_tag == some r.2)) = true := by
  exact ⟨rfl, rfl⟩

end SphereScript
